import Mathlib

set_option maxRecDepth 4000

/-! Shallow embedding of the TripMate chat backend's response-extraction and
conversational-context pipeline (`src/backend/server.py`, mainly the `chat`
endpoint).  Python strings are modelled as lists of characters; Python's
`-1`-returning index searches are modelled with `Option Nat`. -/

abbrev Str := List Char

/-- Character-list view of a Lean string literal. -/
def pyS (s : String) : Str := s.data

/-- Least index `j ≥ i` at which `pat` occurs in `s` (scanning `s` left to
right), the helper behind Python `str.find`. -/
def strFindAux (pat : Str) : Str → Nat → Option Nat
  | s, i =>
    if pat.isPrefixOf s then some i
    else
      match s with
      | [] => none
      | _ :: t => strFindAux pat t (i + 1)

/-- Python `s.find(pat)`: least occurrence index, `none` for Python's `-1`. -/
def strFind (s pat : Str) : Option Nat := strFindAux pat s 0

/-- Python `pat in s` (substring containment). -/
def strContains (s pat : Str) : Bool := (strFind s pat).isSome

/-- Python `s.startswith(pat)`. -/
def strStartsWith (s pat : Str) : Bool := pat.isPrefixOf s

/-- All indices at which `pat` occurs in `s`, ascending (offset by `i`). -/
def strOccsAux (pat : Str) : Str → Nat → List Nat
  | s, i =>
    let rest :=
      match s with
      | [] => []
      | _ :: t => strOccsAux pat t (i + 1)
    if pat.isPrefixOf s then i :: rest else rest

/-- Python `s.rfind(pat)`: greatest occurrence index, `none` for `-1`. -/
def strRFind (s pat : Str) : Option Nat := (strOccsAux pat s 0).getLast?

/-- Python `s.strip()` (whitespace trimmed from both ends). -/
def pyStrip (s : Str) : Str :=
  ((s.dropWhile Char.isWhitespace).reverse.dropWhile Char.isWhitespace).reverse

/-- Python `s.split('\n', 1)[1] if '\n' in s else s`: drop the first line
(through the first newline) when one exists. -/
def dropFirstLine (s : Str) : Str :=
  match strFind s [Char.ofNat 10] with
  | some i => s.drop (i + 1)
  | none => s

/-- Python `s.rsplit(pat, 1)[0]`: everything before the last occurrence of
`pat`, or all of `s` when `pat` does not occur. -/
def rsplitBefore (s pat : Str) : Str :=
  match strRFind s pat with
  | some i => s.take i
  | none => s

/-- Python `s[-n:]` on lists. -/
def lastN (n : Nat) (l : List α) : List α := l.drop (l.length - n)

/-- Python `s.split('\n')` (note: a trailing newline produces a final `""`). -/
def splitNL : Str → List Str
  | [] => [[]]
  | c :: rest =>
    if c = Char.ofNat 10 then [] :: splitNL rest
    else
      match splitNL rest with
      | [] => [[c]]
      | h :: t => (c :: h) :: t

/-- Python `'\n'.join(xs)`. -/
def joinNL : List Str → Str
  | [] => []
  | [x] => x
  | x :: y :: t => x ++ Char.ofNat 10 :: joinNL (y :: t)

/-- Python `s.lower()` (ASCII model). -/
def pyLower (s : Str) : Str := s.map Char.toLower

/-! ## JSON values and a model of `json.loads`

`json.loads` is an external library call; we model it as a strict
recursive-descent parser returning `none` on any syntax error (the code
catches the exception Python would raise).  Numbers are modelled as integers
and `\uXXXX` escapes are rejected; no claim depends on those corners. -/

inductive JVal where
  | jnull
  | jbool (b : Bool)
  | jnum (n : Int)
  | jstr (s : Str)
  | jarr (elems : List JVal)
  | jobj (fields : List (Str × JVal))

def quoteChar : Char := Char.ofNat 34

def backslashChar : Char := Char.ofNat 92

def lbraceChar : Char := Char.ofNat 123

def rbraceChar : Char := Char.ofNat 125

/-- JSON string escapes (the common single-character ones). -/
def unescape (e : Char) : Option Char :=
  if e = quoteChar then some quoteChar
  else if e = backslashChar then some backslashChar
  else if e = '/' then some '/'
  else if e = 'n' then some (Char.ofNat 10)
  else if e = 't' then some (Char.ofNat 9)
  else if e = 'r' then some (Char.ofNat 13)
  else if e = 'b' then some (Char.ofNat 8)
  else if e = 'f' then some (Char.ofNat 12)
  else none

/-- Parse the body of a JSON string literal (the opening quote already
consumed), returning the decoded text and the remaining input. -/
def parseStrLit : Str → Option (Str × Str)
  | [] => none
  | c :: rest =>
    if c = quoteChar then some ([], rest)
    else if c = backslashChar then
      match rest with
      | [] => none
      | e :: rest2 =>
        match unescape e, parseStrLit rest2 with
        | some d, some (out, rem) => some (d :: out, rem)
        | _, _ => none
    else
      match parseStrLit rest with
      | some (out, rem) => some (c :: out, rem)
      | none => none

/-- Accumulate decimal digits. -/
def digitsToNat (acc : Nat) : Str → Nat × Str
  | [] => (acc, [])
  | c :: rest =>
    if c.isDigit then digitsToNat (acc * 10 + (c.toNat - 48)) rest
    else (acc, c :: rest)

/-- Parse a nonempty digit run. -/
def parseNumTail : Str → Option (Int × Str)
  | [] => none
  | c :: rest =>
    if c.isDigit then
      let p := digitsToNat (c.toNat - 48) rest
      some ((p.1 : Int), p.2)
    else none

/-- Parse a JSON number (integer model). -/
def parseNum : Str → Option (JVal × Str)
  | [] => none
  | c :: rest =>
    if c = '-' then
      match parseNumTail rest with
      | some (n, rem) => some (.jnum (-n), rem)
      | none => none
    else
      match parseNumTail (c :: rest) with
      | some (n, rem) => some (.jnum n, rem)
      | none => none

/-- Leading-whitespace skip used by the parser. -/
def skipWs (s : Str) : Str := s.dropWhile Char.isWhitespace

mutual

/-- Parse one JSON value (fuel-indexed recursive descent; the case tree
branches on the head character first). -/
def parseVal : Nat → Str → Option (JVal × Str)
  | 0, _ => none
  | f + 1, s =>
    match skipWs s with
    | [] => none
    | c :: r =>
      if c = quoteChar then
        match parseStrLit r with
        | some (out, rem) => some (.jstr out, rem)
        | none => none
      else if c = '[' then
        match skipWs r with
        | ']' :: r2 => some (.jarr [], r2)
        | r1 =>
          match parseItems f r1 with
          | some (vs, rem) => some (.jarr vs, rem)
          | none => none
      else if c = lbraceChar then
        match skipWs r with
        | d :: r2 =>
          if d = rbraceChar then some (.jobj [], r2)
          else
            match parseFields f (d :: r2) with
            | some (fs, rem) => some (.jobj fs, rem)
            | none => none
        | [] => none
      else if c = 'n' then
        match r with
        | 'u' :: 'l' :: 'l' :: r2 => some (.jnull, r2)
        | _ => none
      else if c = 't' then
        match r with
        | 'r' :: 'u' :: 'e' :: r2 => some (.jbool true, r2)
        | _ => none
      else if c = 'f' then
        match r with
        | 'a' :: 'l' :: 's' :: 'e' :: r2 => some (.jbool false, r2)
        | _ => none
      else parseNum (c :: r)

/-- Parse a nonempty comma-separated list of array elements up to `]`. -/
def parseItems : Nat → Str → Option (List JVal × Str)
  | 0, _ => none
  | f + 1, s =>
    match parseVal f s with
    | some (v, r) =>
      match skipWs r with
      | ',' :: r2 =>
        match parseItems f r2 with
        | some (vs, rem) => some (v :: vs, rem)
        | none => none
      | ']' :: r2 => some ([v], r2)
      | _ => none
    | none => none

/-- Parse a nonempty comma-separated list of object members up to `}`. -/
def parseFields : Nat → Str → Option (List (Str × JVal) × Str)
  | 0, _ => none
  | f + 1, s =>
    match skipWs s with
    | c :: r =>
      if c = quoteChar then
        match parseStrLit r with
        | some (k, r2) =>
          match skipWs r2 with
          | ':' :: r3 =>
            match parseVal f r3 with
            | some (v, r4) =>
              match skipWs r4 with
              | ',' :: r5 =>
                match parseFields f r5 with
                | some (fs, rem) => some ((k, v) :: fs, rem)
                | none => none
              | d :: r5 =>
                if d = rbraceChar then some ([(k, v)], r5) else none
              | [] => none
            | none => none
          | _ => none
        | none => none
      else none
    | [] => none

end

/-- Model of Python `json.loads`: parse one value and require only trailing
whitespace; any failure is `none` (the callers catch the raised exception). -/
def jsonLoads (s : Str) : Option JVal :=
  match parseVal (2 * s.length + 2) s with
  | some (v, rest) => if skipWs rest = [] then some v else none
  | none => none

/-- Python `dict.get` on the parsed object's members (a later duplicate key
wins, as when `json.loads` builds the dict). -/
def jGet (fields : List (Str × JVal)) (k : Str) : Option JVal :=
  match fields with
  | [] => none
  | (k0, v0) :: rest =>
    match jGet rest k with
    | some v => some v
    | none => if k0 = k then some v0 else none

/-- Python truthiness of a looked-up value (`if trip_json.get('to'):`). -/
def jTruthy : Option JVal → Bool
  | none => false
  | some .jnull => false
  | some (.jbool b) => b
  | some (.jnum n) => n ≠ 0
  | some (.jstr s) => s ≠ []
  | some (.jarr es) => !es.isEmpty
  | some (.jobj fs) => !fs.isEmpty

example : jsonLoads (pyS ("\x7b\"to\": \"Wanaka\"\x7d")) =
    some (.jobj [(pyS ("to"), .jstr (pyS ("Wanaka")))]) := by rfl

example : jsonLoads (pyS ("\x7bbad")) = none := by rfl

/-! ## Response Extractor (server.py lines 729-767)

The post-reply `trip_data` extraction: three candidate-selection branches in
fixed precedence on the stripped reply, then a parse attempt guarded by the
candidate starting with `{`; every failure yields `None`. -/

def fenceStr : Str := pyS ("```")

def fenceJsonStr : Str := pyS ("```json")

/-- The candidate string the code's normalisation leaves in
`cleaned_response` just before the parse attempt.  Branch 1 slices between
the `"```json"` marker (skipping its 7 characters) and the next closing
fence; branch 2 drops the first line and everything from the last fence on;
branch 3 takes the span from the first `{` to the last `}`.  When a branch's
inner indices are missing (`-1` in Python), `cleaned_response` is left as the
stripped reply. -/
def extractCandidate (resp : Str) : Str :=
  let cleaned := pyStrip resp
  if strContains cleaned fenceJsonStr then
    match strFind cleaned fenceJsonStr with
    | some js =>
      let jsonContent := cleaned.drop (js + 7)
      match strFind jsonContent fenceStr with
      | some je => pyStrip (jsonContent.take je)
      | none => cleaned
    | none => cleaned
  else if strStartsWith cleaned fenceStr then
    pyStrip (rsplitBefore (dropFirstLine cleaned) fenceStr)
  else if strContains cleaned [lbraceChar] then
    match strFind cleaned [lbraceChar], strRFind cleaned [rbraceChar] with
    | some js, some je =>
      if js < je then (cleaned.drop js).take (je + 1 - js) else cleaned
    | _, _ => cleaned
  else cleaned

/-- `extract(reply)`: parse the candidate only when it starts with `{`;
parse failures are swallowed into `none`. -/
def extract (resp : Str) : Option JVal :=
  let c := extractCandidate resp
  if strStartsWith c [lbraceChar] then jsonLoads c else none

/-! ## Context Tracker (server.py lines 351-394)

The history loop over `messages[:-1]` that recovers
`current_origin`/`current_destination`/`last_trip_json` from assistant
turns. -/

def roleUser : Str := pyS ("user")

def roleAssistant : Str := pyS ("assistant")

/-- One stored conversation turn (`Message`: role and content; the session id
and timestamp are carried by the surrounding store). -/
structure MsgT where
  role : Str
  content : Str

/-- The dict view of a parse result: the tracker's `.get` calls require a
dict, and a non-dict value raises `AttributeError`, swallowed by the
surrounding `except` with no state change. -/
def objFilter : Option JVal → Option (List (Str × JVal))
  | some (.jobj fs) => some fs
  | _ => none

/-- The tracker's per-turn extraction attempt: only the `"```json"`-fenced
shape (requiring a closing fence) and the direct `{`-leading shape are
tried; the parsed value must be a dict for the subsequent `.get` calls to
succeed.  The code's absolute-index `content.find('```', json_start)` and
slice `content[json_start:json_end]` are rendered with suffix-relative
indices, which select the same substring. -/
def trackerPayload (content0 : Str) : Option (List (Str × JVal)) :=
  let content := pyStrip content0
  if strContains content fenceJsonStr then
    match strFind content fenceJsonStr with
    | some i =>
      let jsonContent := content.drop (i + 7)
      match strFind jsonContent fenceStr with
      | some je => objFilter (jsonLoads (pyStrip (jsonContent.take je)))
      | none => none
    | none => none
  else if strStartsWith content [lbraceChar] then
    objFilter (jsonLoads content)
  else none

def keyTo : Str := pyS ("to")

def keyFrom : Str := pyS ("from")

/-- The trip state recovered while replaying the history. -/
structure Ctx where
  origin : Option JVal
  dest : Option JVal
  lastJson : Option JVal

def initCtx : Ctx := ⟨none, none, none⟩

/-- One turn of the recovery loop: assistant turns with a recovered dict
update destination (on a truthy `"to"`, also recording the full payload)
and origin (on a truthy `"from"`); every other turn leaves the state
unchanged. -/
def ctxStep (st : Ctx) (m : MsgT) : Ctx :=
  if m.role = roleAssistant then
    match trackerPayload m.content with
    | some fs =>
      let st1 :=
        if jTruthy (jGet fs keyTo) then
          { st with dest := jGet fs keyTo, lastJson := some (.jobj fs) }
        else st
      if jTruthy (jGet fs keyFrom) then { st1 with origin := jGet fs keyFrom }
      else st1
    | none => st
  else st

/-- Replay of the fetched history, excluding the just-inserted last message
(`for msg in messages[:-1]`). -/
def recoverContext (msgs : List MsgT) : Ctx :=
  msgs.dropLast.foldl ctxStep initCtx

def tripWord : Str := pyS ("trip")

def routeWord : Str := pyS ("route")

/-- `'trip' in content.lower() or 'route' in content.lower()`. -/
def mentionsTripTopic (m : MsgT) : Bool :=
  strContains (pyLower m.content) tripWord ||
    strContains (pyLower m.content) routeWord

/-- `messages and any(... for m in messages[-5:])` (server.py line 654). -/
def isFollowUp (msgs : List MsgT) : Bool :=
  (!msgs.isEmpty) && (lastN 5 msgs).any mentionsTripTopic

/-! ## Prompt Composer (server.py lines 351-358 and 650-697) -/

/-- `conversation_context`: the `"role: content\n"` lines accumulated over
the replayed turns. -/
def convContext (msgs : List MsgT) : Str :=
  msgs.foldl
    (fun acc m => acc ++ m.role ++ pyS (": ") ++ m.content ++ [Char.ofNat 10])
    []

/-- The source file stores the "→" arrows of its prompt text as UTF-8 bytes
re-decoded as CP-1252; the resulting three characters are U+00E2, U+2020,
U+2019. -/
def arrowGlyph : Str := [Char.ofNat 226, Char.ofNat 8224, Char.ofNat 8217]

/-- Likewise the check-mark emoji appears as U+00E2, U+0153, U+2026. -/
def checkGlyph : Str := [Char.ofNat 226, Char.ofNat 339, Char.ofNat 8230]

def sqChar : Char := Char.ofNat 39

mutual

/-- Model of Python `repr` for a decoded JSON value. -/
def pyReprV : JVal → Str
  | .jnull => pyS ("None")
  | .jbool true => pyS ("True")
  | .jbool false => pyS ("False")
  | .jnum n => pyS (toString n)
  | .jstr s => sqChar :: s ++ [sqChar]
  | .jarr es => '[' :: (pyReprList es ++ [']'])
  | .jobj fs => lbraceChar :: (pyReprFields fs ++ [rbraceChar])

/-- Comma-separated reprs of array elements. -/
def pyReprList : List JVal → Str
  | [] => []
  | [v] => pyReprV v
  | v :: w :: t => pyReprV v ++ pyS (", ") ++ pyReprList (w :: t)

/-- Comma-separated `'key': value` reprs of dict members. -/
def pyReprFields : List (Str × JVal) → Str
  | [] => []
  | [(k, v)] => (sqChar :: k ++ [sqChar]) ++ pyS (": ") ++ pyReprV v
  | (k, v) :: q :: t =>
    ((sqChar :: k ++ [sqChar]) ++ pyS (": ") ++ pyReprV v) ++ pyS (", ") ++
      pyReprFields (q :: t)

end

/-- Model of Python `str()` as used by the f-string interpolations. -/
def pyStrV (v : JVal) : Str :=
  match v with
  | .jstr s => s
  | v => pyReprV v

/-- Interpolation of a possibly-absent value (`None` renders as "None"). -/
def pyStrOpt : Option JVal → Str
  | none => pyS ("None")
  | some v => pyStrV v

/-- The `destination_context` block (server.py lines 656-676): empty unless a
truthy destination was recovered. -/
def destCtxBlock (origin dest : Option JVal) : Str :=
  if jTruthy dest then
    pyS ("\nCURRENT NZ TRIP DESTINATION: ") ++ pyStrOpt dest ++
    pyS ("\nCURRENT NZ TRIP ORIGIN: ") ++
    (if jTruthy origin then pyStrOpt origin else pyS ("Unknown")) ++
    pyS ("\n\n*** KIWI FOLLOW-UP RULES ***\nThe user is asking about the trip to \"") ++
    pyStrOpt dest ++
    pyS ("\". You MUST:\n1. ALWAYS include \"from\": \"") ++ pyStrOpt origin ++
    pyS ("\", \"to\": \"") ++ pyStrOpt dest ++
    pyS ("\" in your JSON response - these fields are REQUIRED!\n2. If user asks for \"more accommodation\", \"more hotels\" ") ++
    arrowGlyph ++
    pyS (" Return REAL NZ hotels/motels/lodges/holiday parks that exist IN or NEAR \"") ++
    pyStrOpt dest ++
    pyS ("\"\n3. If user asks for \"more places\", \"other activities\" ") ++
    arrowGlyph ++ pyS (" Return REAL NZ places/activities in \"") ++
    pyStrOpt dest ++
    pyS ("\" area\n4. If user asks for \"more restaurants\", \"food options\" ") ++
    arrowGlyph ++ pyS (" Return REAL NZ restaurants/cafes in \"") ++
    pyStrOpt dest ++
    pyS ("\"\n5. NEVER use generic names - use actual NZ accommodation names like \"YHA\", \"Bella Vista Motel\", \"Top 10 Holiday Park\", etc.\n6. All prices in NZ$\n\nEXAMPLES OF REAL NZ ACCOMMODATION:\n") ++
    checkGlyph ++
    pyS (" YHA Queenstown Lakefront, Bella Vista Motel, Jucy Snooze, Base Backpackers, Hilton Queenstown, Millbrook Resort\n") ++
    checkGlyph ++
    pyS (" Distinction Hotels, Scenic Hotels, Heritage Hotels, Quest Apartments, Sudima Hotels\n\nREQUIRED JSON FIELDS FOR FOLLOW-UP: Always include \"from\", \"to\", \"duration\" even for partial updates!\n")
  else []

/-- The follow-up rebuild of `system_prompt` (server.py lines 678-695). -/
def followUpPrompt (basePrompt : Str) (origin dest : Option JVal)
    (recent userMsg : Str) : Str :=
  basePrompt ++
  pyS ("\n\nIMPORTANT CONTEXT RULES:\n- ALWAYS preserve \"from\": \"") ++
  pyStrOpt origin ++ pyS ("\", \"to\": \"") ++ pyStrOpt dest ++
  pyS ("\" in your JSON response!\n- If user asks \"make it 3 days\", \"extend to 3 days\", \"change to 4 days\" ") ++
  arrowGlyph ++ pyS (" KEEP the same from/to locations (") ++
  pyStrOpt origin ++ pyS (" to ") ++ pyStrOpt dest ++
  pyS ("), just change duration and add more timeline days\n- If user asks \"more places\", \"add places\", \"what else\" ") ++
  arrowGlyph ++ pyS (" ADD more places to existing trip in ") ++
  pyStrOpt dest ++
  pyS (", keep from/to/duration/routes same\n- If user asks \"show restaurants\", \"gas stations\" ") ++
  arrowGlyph ++ pyS (" ADD amenities to existing trip near ") ++
  pyStrOpt dest ++
  pyS ("\n- If user asks \"more hotels\", \"more accommodation\", \"other places to stay\" ") ++
  arrowGlyph ++ pyS (" ADD 5-6 MORE REAL hotels/motels/lodges in ") ++
  pyStrOpt dest ++
  pyS (" area. Keep the \"from\", \"to\", \"duration\", \"routes\" SAME and only update \"hotels\" array with additional options!\n- If user asks \"show flights\", \"flight options\", \"how to fly\" ") ++
  arrowGlyph ++
  pyS (" ADD flights section with realistic prices and airlines\n- If user asks \"train routes\", \"train options\" ") ++
  arrowGlyph ++
  pyS (" ADD trains section with operators and prices\n- NEVER create a completely different trip unless user explicitly mentions NEW cities\n") ++
  destCtxBlock origin dest ++
  pyS ("\n\nCONVERSATION HISTORY:\n") ++ recent ++
  pyS ("\n\nUser's current request: ") ++ userMsg ++
  pyS ("\nRemember: For \"") ++ pyStrOpt dest ++
  pyS ("\" - use ONLY real, Google-searchable names! Always include from/to fields! Include flights for international trips!")

/-- The composition step (server.py lines 650-697) given its inputs: the
base prompt, the recovered context, the follow-up flag, the accumulated
`conversation_context` text, and the user's message. -/
def composePrompt (basePrompt : Str) (origin dest : Option JVal)
    (followUp : Bool) (conversationContext : Str) (userMsg : Str) : Str :=
  if conversationContext.isEmpty then basePrompt
  else
    let recent := joinNL (lastN 6 (splitNL conversationContext))
    if followUp then followUpPrompt basePrompt origin dest recent userMsg
    else
      basePrompt ++ pyS ("\n\nCONTEXT:\n") ++ recent ++
        pyS ("\n\nRespond to: ") ++ userMsg

/-- The full prompt the `chat` endpoint composes from the fetched history
`msgs` and the request message. -/
def promptFor (basePrompt : Str) (msgs : List MsgT) (userMsg : Str) : Str :=
  let st := recoverContext msgs
  composePrompt basePrompt st.origin st.dest (isFollowUp msgs)
    (convContext msgs.dropLast) userMsg

/-! ## Conversation store and the chat request flow (server.py lines 331-777)

The per-session store is the list of that session's messages in ascending
timestamp order (the history query sorts ascending); `insert_one` appends.
The outbound LLM call is a parameter mapping the composed prompt to either a
reply or a failure; on failure the exception propagates out of the handler
past the remaining writes. -/

/-- The `POST /chat` response (`ChatResponse`). -/
structure ChatResp where
  session : Str
  message : Str
  trip : Option JVal

/-- The history read: ascending by timestamp, truncated by `.to_list(100)`. -/
def fetchHistory (store : List MsgT) : List MsgT := store.take 100

/-- The prompt the handler sends for a given pre-request store and message
(the user turn is inserted before the history read). -/
def promptUsed (basePrompt : Str) (store : List MsgT) (userMsg : Str) : Str :=
  promptFor basePrompt (fetchHistory (store ++ [⟨roleUser, userMsg⟩])) userMsg

/-- The `chat` handler's effect on the session store plus its response: the
user turn is persisted first; the LLM is called on the composed prompt; only
on success is the assistant turn persisted and the response built (with the
raw reply and the extraction attempt). -/
def chatRun (basePrompt : Str) (store : List MsgT) (sessionId userMsg : Str)
    (llm : Str → Option Str) : List MsgT × Option ChatResp :=
  let store1 := store ++ [⟨roleUser, userMsg⟩]
  let messages := fetchHistory store1
  let prompt := promptFor basePrompt messages userMsg
  match llm prompt with
  | none => (store1, none)
  | some reply =>
    (store1 ++ [⟨roleAssistant, reply⟩],
      some ⟨sessionId, reply, extract reply⟩)

/-! ## Helper lemmas -/

theorem mem_of_mem_pyStrip {c : Char} {s : Str} (h : c ∈ pyStrip s) : c ∈ s := by
  unfold pyStrip at h
  rw [List.mem_reverse] at h
  have h1 : c ∈ (s.dropWhile Char.isWhitespace).reverse :=
    (List.dropWhile_sublist _).mem h
  rw [List.mem_reverse] at h1
  exact (List.dropWhile_sublist _).mem h1

theorem mem_of_mem_dropFirstLine {c : Char} {s : Str}
    (h : c ∈ dropFirstLine s) : c ∈ s := by
  unfold dropFirstLine at h
  split at h
  · exact List.drop_subset _ _ h
  · exact h

theorem mem_of_mem_rsplitBefore {c : Char} {s pat : Str}
    (h : c ∈ rsplitBefore s pat) : c ∈ s := by
  unfold rsplitBefore at h
  split at h
  · exact List.take_subset _ _ h
  · exact h

theorem mem_of_mem_extractCandidate {c : Char} {resp : Str}
    (h : c ∈ extractCandidate resp) : c ∈ resp := by
  simp only [extractCandidate] at h
  repeat' split at h
  all_goals
    first
    | exact mem_of_mem_pyStrip h
    | exact mem_of_mem_pyStrip
        (List.drop_subset _ _ (List.take_subset _ _ (mem_of_mem_pyStrip h)))
    | exact mem_of_mem_pyStrip
        (mem_of_mem_dropFirstLine (mem_of_mem_rsplitBefore (mem_of_mem_pyStrip h)))
    | exact mem_of_mem_pyStrip (List.drop_subset _ _ (List.take_subset _ _ h))

theorem strFindAux_ge {pat : Str} {s : Str} :
    ∀ {i j : Nat}, strFindAux pat s i = some j → i ≤ j := by
  induction s with
  | nil =>
    intro i j h
    unfold strFindAux at h
    split at h
    · injection h with h2; omega
    · simp at h
  | cons a t ih =>
    intro i j h
    unfold strFindAux at h
    split at h
    · injection h with h2; omega
    · exact Nat.le_of_succ_le (ih h)

theorem strFind_zero {s pat : Str} (h : strFind s pat = some 0) :
    pat.isPrefixOf s = true := by
  unfold strFind strFindAux at h
  split at h
  · assumption
  · split at h
    · simp at h
    · exact absurd (strFindAux_ge h) (by omega)

theorem strFind_of_prefix {s pat : Str} (h : pat.isPrefixOf s = true) :
    strFind s pat = some 0 := by
  unfold strFind strFindAux
  rw [if_pos h]

theorem startsWith_lbrace {s : Str} (h : strStartsWith s [lbraceChar] = true) :
    ∃ t, s = lbraceChar :: t := by
  unfold strStartsWith at h
  match s, h with
  | a :: t, h =>
    simp [List.isPrefixOf] at h
    exact ⟨t, by rw [h]⟩
  | [], h => simp [List.isPrefixOf] at h

theorem skipWs_cons_not_ws {c : Char} {t : Str} (h : c.isWhitespace = false) :
    skipWs (c :: t) = c :: t := by
  simp [skipWs, List.dropWhile_cons, h]

/-- `parseVal` on a `{`-leading input reduces to the object branch. -/
theorem parseVal_lbrace (f : Nat) (t : Str) :
    parseVal (f + 1) (lbraceChar :: t) =
      match skipWs t with
      | d :: r2 =>
        if d = rbraceChar then some (JVal.jobj [], r2)
        else
          match parseFields f (d :: r2) with
          | some (fs, rem) => some (JVal.jobj fs, rem)
          | none => none
      | [] => none := rfl

theorem parseVal_lbrace_nil (f : Nat) (t : Str) (hsw : skipWs t = []) :
    parseVal (f + 1) (lbraceChar :: t) = none := by
  rw [parseVal_lbrace, hsw]

theorem parseVal_lbrace_cons (f : Nat) (t : Str) (d : Char) (r2 : Str)
    (hsw : skipWs t = d :: r2) :
    parseVal (f + 1) (lbraceChar :: t) =
      if d = rbraceChar then some (JVal.jobj [], r2)
      else
        match parseFields f (d :: r2) with
        | some (fs, rem) => some (JVal.jobj fs, rem)
        | none => none := by
  rw [parseVal_lbrace, hsw]

/-- A `{`-leading string, if `json.loads` accepts it at all, parses to a
dict (so the `.get` calls on the result cannot fail). -/
theorem jsonLoads_lbrace_shape {t : Str} :
    jsonLoads (lbraceChar :: t) = none ∨
      ∃ fs, jsonLoads (lbraceChar :: t) = some (JVal.jobj fs) := by
  unfold jsonLoads
  rw [show 2 * (lbraceChar :: t).length + 2 =
      (2 * (lbraceChar :: t).length + 1) + 1 from rfl]
  cases hsw : skipWs t with
  | nil =>
    rw [parseVal_lbrace_nil _ _ hsw]
    exact Or.inl rfl
  | cons d r2 =>
    rw [parseVal_lbrace_cons _ _ _ _ hsw]
    by_cases hd : d = rbraceChar
    · rw [if_pos hd]
      by_cases hz : skipWs r2 = []
      · exact Or.inr ⟨[], by rw [show (match (some (JVal.jobj [], r2) :
          Option (JVal × Str)) with
          | some (v, rest) => if skipWs rest = [] then some v else none
          | none => none) = if skipWs r2 = [] then some (JVal.jobj []) else none
          from rfl, if_pos hz]⟩
      · exact Or.inl (by rw [show (match (some (JVal.jobj [], r2) :
          Option (JVal × Str)) with
          | some (v, rest) => if skipWs rest = [] then some v else none
          | none => none) = if skipWs r2 = [] then some (JVal.jobj []) else none
          from rfl, if_neg hz])
    · rw [if_neg hd]
      cases hpf : parseFields (2 * (lbraceChar :: t).length + 1) (d :: r2) with
      | none => exact Or.inl rfl
      | some pr =>
        obtain ⟨fs, rem⟩ := pr
        by_cases hz : skipWs rem = []
        · exact Or.inr ⟨fs, by rw [show (match (some (JVal.jobj fs, rem) :
            Option (JVal × Str)) with
            | some (v, rest) => if skipWs rest = [] then some v else none
            | none => none) = if skipWs rem = [] then some (JVal.jobj fs) else none
            from rfl, if_pos hz]⟩
        · exact Or.inl (by rw [show (match (some (JVal.jobj fs, rem) :
            Option (JVal × Str)) with
            | some (v, rest) => if skipWs rest = [] then some v else none
            | none => none) = if skipWs rem = [] then some (JVal.jobj fs) else none
            from rfl, if_neg hz])

/-- Branch 1 of the candidate selection: a `"```json"` marker with a closing
fence yields the trimmed text between them. -/
theorem extractCandidate_fenced (resp : Str) (js je : Nat)
    (h1 : strFind (pyStrip resp) fenceJsonStr = some js)
    (h2 : strFind ((pyStrip resp).drop (js + 7)) fenceStr = some je) :
    extractCandidate resp = pyStrip (((pyStrip resp).drop (js + 7)).take je) := by
  have hc : strContains (pyStrip resp) fenceJsonStr = true := by
    unfold strContains
    rw [h1]
    rfl
  simp [extractCandidate, hc, h1, h2]

/-- Branch 2 of the candidate selection: a generic leading fence yields the
reply with its first line and the trailing fence stripped. -/
theorem extractCandidate_generic (resp : Str)
    (h1 : strContains (pyStrip resp) fenceJsonStr = false)
    (h2 : strStartsWith (pyStrip resp) fenceStr = true) :
    extractCandidate resp =
      pyStrip (rsplitBefore (dropFirstLine (pyStrip resp)) fenceStr) := by
  simp [extractCandidate, h1, h2]

/-- Branch 3 of the candidate selection: the span from the first `{` to the
last `}`. -/
theorem extractCandidate_braceSpan (resp : Str) (js je : Nat)
    (h1 : strContains (pyStrip resp) fenceJsonStr = false)
    (h2 : strStartsWith (pyStrip resp) fenceStr = false)
    (h3 : strFind (pyStrip resp) [lbraceChar] = some js)
    (h4 : strRFind (pyStrip resp) [rbraceChar] = some je)
    (h5 : js < je) :
    extractCandidate resp = ((pyStrip resp).drop js).take (je + 1 - js) := by
  have hc3 : strContains (pyStrip resp) [lbraceChar] = true := by
    unfold strContains
    rw [h3]
    rfl
  simp [extractCandidate, h1, h2, hc3, h3, h4, h5]

/-! ## Claim theorems -/

/-- C1: For every assistant reply string, the extractor selects its parse
candidate by exactly three branches tried in fixed precedence with first
match winning: (1) a reply containing a `"```json"` marker takes the
substring between the marker (skipping its token) and the next closing
fence, trimmed; (2) else a reply starting with `"```"` takes the reply with
its first line and trailing fence stripped; (3) else a reply containing a
`{` takes the span from the first `{` to the last `}`; the candidate is then
parsed as a structured map only if it starts with `{`. -/
theorem extract_branch_precedence (resp : Str) :
    (∀ js je, strFind (pyStrip resp) fenceJsonStr = some js →
      strFind ((pyStrip resp).drop (js + 7)) fenceStr = some je →
      extractCandidate resp =
        pyStrip (((pyStrip resp).drop (js + 7)).take je)) ∧
    (strContains (pyStrip resp) fenceJsonStr = false →
      strStartsWith (pyStrip resp) fenceStr = true →
      extractCandidate resp =
        pyStrip (rsplitBefore (dropFirstLine (pyStrip resp)) fenceStr)) ∧
    (∀ js je, strContains (pyStrip resp) fenceJsonStr = false →
      strStartsWith (pyStrip resp) fenceStr = false →
      strFind (pyStrip resp) [lbraceChar] = some js →
      strRFind (pyStrip resp) [rbraceChar] = some je → js < je →
      extractCandidate resp = ((pyStrip resp).drop js).take (je + 1 - js)) ∧
    extract resp =
      (if strStartsWith (extractCandidate resp) [lbraceChar] = true then
        jsonLoads (extractCandidate resp) else none) := by
  refine ⟨?_, ?_, ?_, rfl⟩
  · intro js je h1 h2
    exact extractCandidate_fenced resp js je h1 h2
  · intro h1 h2
    exact extractCandidate_generic resp h1 h2
  · intro js je h1 h2 h3 h4 h5
    exact extractCandidate_braceSpan resp js je h1 h2 h3 h4 h5

def respA : Str := pyS ("Sure!\n```json\n\x7b\"to\": \"Q\"\x7d\n```")

def respB : Str := pyS ("```\n\x7b\"a\": 1\x7d\n```")

def respC : Str := pyS ("note \x7b\"a\": 1\x7d end")

theorem extract_branch_precedence_witness :
    extractCandidate respA = pyS ("\x7b\"to\": \"Q\"\x7d") ∧
    extractCandidate respB = pyS ("\x7b\"a\": 1\x7d") ∧
    extractCandidate respC = pyS ("\x7b\"a\": 1\x7d") := by
  refine ⟨?_, ?_, ?_⟩
  · rw [(extract_branch_precedence respA).1 6 13 (by decide) (by decide)]
    decide
  · rw [(extract_branch_precedence respB).2.1 (by decide) (by decide)]
    decide
  · rw [(extract_branch_precedence respC).2.2.1 5 12 (by decide) (by decide)
      (by decide) (by decide) (by decide)]
    decide

/-- C2: extraction is total and never throws past its boundary: a reply with
no `{` character yields `none`, and a candidate the JSON parser rejects
(unbalanced braces, syntax errors) yields `none` rather than a propagated
exception (the embedding of `extract` is a total function). -/
theorem extract_total (resp : Str) :
    (lbraceChar ∉ resp → extract resp = none) ∧
    (jsonLoads (extractCandidate resp) = none → extract resp = none) := by
  constructor
  · intro hmem
    show (if strStartsWith (extractCandidate resp) [lbraceChar] = true then
      jsonLoads (extractCandidate resp) else none) = none
    by_cases hs : strStartsWith (extractCandidate resp) [lbraceChar] = true
    · obtain ⟨t, ht⟩ := startsWith_lbrace hs
      have hin : lbraceChar ∈ extractCandidate resp := by
        rw [ht]
        exact List.mem_cons_self _ _
      exact absurd (mem_of_mem_extractCandidate hin) hmem
    · rw [if_neg hs]
  · intro hparse
    show (if strStartsWith (extractCandidate resp) [lbraceChar] = true then
      jsonLoads (extractCandidate resp) else none) = none
    by_cases hs : strStartsWith (extractCandidate resp) [lbraceChar] = true
    · rw [if_pos hs, hparse]
    · rw [if_neg hs]

def respNoBrace : Str := pyS ("Kia ora! No structured data here.")

def respBadJson : Str := pyS ("\x7b\"to\": unclosed")

theorem extract_total_witness :
    extract respNoBrace = none ∧ extract respBadJson = none := by
  constructor
  · exact (extract_total respNoBrace).1 (by decide)
  · exact (extract_total respBadJson).2 (by rfl)

theorem objFilter_map {o : Option JVal}
    (h : o = none ∨ ∃ fs, o = some (JVal.jobj fs)) :
    o = (objFilter o).map JVal.jobj := by
  rcases h with rfl | ⟨fs, rfl⟩ <;> rfl

def braceSpanReply : Str := pyS ("Here it is \x7b\"to\": \"Wanaka\"\x7d enjoy")

/-- C3 counterexample: a brace-span reply (prose around a bare payload) from
which `extract` recovers a payload while the Context Tracker's per-turn
attempt recovers nothing, refuting the claimed equality for all content
strings. -/
theorem tracker_extract_counterexample :
    trackerPayload braceSpanReply = none ∧
    extract braceSpanReply =
      some (JVal.jobj [(keyTo, JVal.jstr (pyS ("Wanaka")))]) ∧
    (trackerPayload braceSpanReply).map JVal.jobj ≠ extract braceSpanReply :=
  ⟨rfl, rfl, fun h => Option.noConfusion h⟩

/-- C3 amended: the tracker attempts extraction only for the fenced-json and
direct-object reply shapes.  On content whose `"```json"` block has a
closing fence and a `{`-leading trimmed candidate, and on content that
(stripped) starts with `{` and ends with `}`, the payload the tracker
recovers equals what `extract` returns; content with neither a `"```json"`
marker nor a leading `{` (generic fences, prose-embedded brace spans) is
never recovered by the tracker even when `extract` returns a payload. -/
theorem tracker_refines_extract :
    (∀ content i je,
      strFind (pyStrip content) fenceJsonStr = some i →
      strFind ((pyStrip content).drop (i + 7)) fenceStr = some je →
      strStartsWith (pyStrip (((pyStrip content).drop (i + 7)).take je))
        [lbraceChar] = true →
      extract content = (trackerPayload content).map JVal.jobj) ∧
    (∀ content,
      strContains (pyStrip content) fenceJsonStr = false →
      strFind (pyStrip content) [lbraceChar] = some 0 →
      strRFind (pyStrip content) [rbraceChar] =
        some ((pyStrip content).length - 1) →
      2 ≤ (pyStrip content).length →
      extract content = (trackerPayload content).map JVal.jobj) ∧
    (∀ content,
      strContains (pyStrip content) fenceJsonStr = false →
      strStartsWith (pyStrip content) [lbraceChar] = false →
      trackerPayload content = none) := by
  refine ⟨?_, ?_, ?_⟩
  · intro content i je h1 h2 hstart
    have hc : strContains (pyStrip content) fenceJsonStr = true := by
      unfold strContains
      rw [h1]
      rfl
    have hcand : extractCandidate content =
        pyStrip (((pyStrip content).drop (i + 7)).take je) :=
      extractCandidate_fenced content i je h1 h2
    have hext : extract content =
        jsonLoads (pyStrip (((pyStrip content).drop (i + 7)).take je)) := by
      show (if strStartsWith (extractCandidate content) [lbraceChar] = true then
        jsonLoads (extractCandidate content) else none) = _
      rw [hcand, if_pos hstart]
    have htr : trackerPayload content =
        objFilter (jsonLoads (pyStrip (((pyStrip content).drop (i + 7)).take je))) := by
      simp [trackerPayload, hc, h1, h2]
    rw [hext, htr]
    obtain ⟨t, ht⟩ := startsWith_lbrace hstart
    rw [ht]
    exact objFilter_map jsonLoads_lbrace_shape
  · intro content h1 h2 h3 hlen
    have hpre : List.isPrefixOf [lbraceChar] (pyStrip content) = true :=
      strFind_zero h2
    have hstart : strStartsWith (pyStrip content) [lbraceChar] = true := hpre
    obtain ⟨t, ht⟩ := startsWith_lbrace hstart
    have hsw2 : strStartsWith (pyStrip content) fenceStr = false := by
      rw [strStartsWith, ht]
      show List.isPrefixOf
        (Char.ofNat 96 :: Char.ofNat 96 :: Char.ofNat 96 :: []) _ = false
      simp [List.isPrefixOf, show (Char.ofNat 96 == lbraceChar) = false from
        by decide]
    have hlt : 0 < (pyStrip content).length - 1 := by omega
    have hcand : extractCandidate content =
        ((pyStrip content).drop 0).take ((pyStrip content).length - 1 + 1 - 0) :=
      extractCandidate_braceSpan content 0 ((pyStrip content).length - 1)
        h1 hsw2 h2 h3 hlt
    have hcand2 : extractCandidate content = pyStrip content := by
      rw [hcand, List.drop_zero,
        show (pyStrip content).length - 1 + 1 - 0 = (pyStrip content).length
          from by omega, List.take_length]
    have hext : extract content = jsonLoads (pyStrip content) := by
      show (if strStartsWith (extractCandidate content) [lbraceChar] = true then
        jsonLoads (extractCandidate content) else none) = _
      rw [hcand2, if_pos hstart]
    have htr : trackerPayload content = objFilter (jsonLoads (pyStrip content)) := by
      simp [trackerPayload, h1, hstart]
    rw [hext, htr, ht]
    exact objFilter_map jsonLoads_lbrace_shape
  · intro content h1 h2
    simp [trackerPayload, h1, h2]

def respD : Str := pyS ("\x7b\"to\": \"Picton\"\x7d")

theorem tracker_refines_extract_witness :
    extract respA = (trackerPayload respA).map JVal.jobj ∧
    extract respD = (trackerPayload respD).map JVal.jobj ∧
    trackerPayload braceSpanReply = none := by
  refine ⟨?_, ?_, ?_⟩
  · exact tracker_refines_extract.1 respA 6 13 (by decide) (by decide) (by decide)
  · exact tracker_refines_extract.2.1 respD (by decide) (by decide) (by decide)
      (by decide)
  · exact tracker_refines_extract.2.2 braceSpanReply (by decide) (by decide)

def turnsTruthy : List MsgT :=
  [⟨roleAssistant, pyS ("\x7b\"to\": \"Queenstown\"\x7d")⟩,
   ⟨roleAssistant, pyS ("\x7b\"to\": \"\"\x7d")⟩,
   ⟨roleUser, pyS ("hi")⟩]

/-- C4 counterexample: the later assistant turn's extraction succeeds and its
payload contains a `"to"` field (the empty string), yet the recovered
destination is the earlier `"Queenstown"`, not that field's value — the code
overwrites only on a truthy `"to"`, refuting "contains a `to` field
overwrites destination" as stated. -/
theorem recover_overwrite_counterexample :
    trackerPayload (pyS ("\x7b\"to\": \"\"\x7d")) = some [(keyTo, JVal.jstr [])] ∧
    jGet [(keyTo, JVal.jstr [])] keyTo = some (JVal.jstr []) ∧
    (recoverContext turnsTruthy).dest = some (JVal.jstr (pyS ("Queenstown"))) ∧
    pyS ("Queenstown") ≠ ([] : Str) :=
  ⟨rfl, rfl, rfl, by decide⟩

def exampleTurns : List MsgT :=
  [⟨roleUser, pyS ("Plan a 3 day trip to Queenstown")⟩,
   ⟨roleAssistant,
     pyS ("```json\n\x7b\"from\": \"Auckland\", \"to\": \"Queenstown\"\x7d\n```")⟩,
   ⟨roleUser, pyS ("actually make it Wanaka")⟩,
   ⟨roleAssistant, pyS ("\x7b\"from\": \"Auckland\", \"to\": \"Wanaka\"\x7d")⟩,
   ⟨roleUser, pyS ("show me more hotels")⟩]

/-- C4 amended: `recoverContext` scans turns strictly forward (the final,
just-inserted message excluded) with last-write-wins semantics: a successful
extraction with a truthy `"to"` value overwrites the destination and records
the full payload, a truthy `"from"` value overwrites the origin, while turns
that fail extraction — and falsy `"to"`/`"from"` values — leave the already
recovered state untouched; in the Queenstown-then-Wanaka example the
recovered destination is `"Wanaka"`. -/
theorem recover_last_write_wins :
    (∀ st m, m.role ≠ roleAssistant → ctxStep st m = st) ∧
    (∀ st m, m.role = roleAssistant → trackerPayload m.content = none →
      ctxStep st m = st) ∧
    (∀ st m fs, m.role = roleAssistant → trackerPayload m.content = some fs →
      jTruthy (jGet fs keyTo) = true →
      (ctxStep st m).dest = jGet fs keyTo ∧
        (ctxStep st m).lastJson = some (JVal.jobj fs)) ∧
    (∀ st m fs, m.role = roleAssistant → trackerPayload m.content = some fs →
      jTruthy (jGet fs keyFrom) = true →
      (ctxStep st m).origin = jGet fs keyFrom) ∧
    (∀ st m fs, m.role = roleAssistant → trackerPayload m.content = some fs →
      jTruthy (jGet fs keyTo) = false →
      (ctxStep st m).dest = st.dest ∧ (ctxStep st m).lastJson = st.lastJson) ∧
    (∀ st m fs, m.role = roleAssistant → trackerPayload m.content = some fs →
      jTruthy (jGet fs keyFrom) = false →
      (ctxStep st m).origin = st.origin) ∧
    (∀ (pre : List MsgT) (m : MsgT),
      recoverContext (pre ++ [m]) = pre.foldl ctxStep initCtx) ∧
    (recoverContext exampleTurns).dest = some (JVal.jstr (pyS ("Wanaka"))) := by
  refine ⟨?_, ?_, ?_, ?_, ?_, ?_, ?_, rfl⟩
  · intro st m h1
    simp [ctxStep, h1]
  · intro st m h1 h2
    simp [ctxStep, h1, h2]
  · intro st m fs h1 h2 h3
    by_cases h4 : jTruthy (jGet fs keyFrom) = true
    · constructor <;> simp [ctxStep, h1, h2, h3, h4]
    · constructor <;> simp [ctxStep, h1, h2, h3, h4]
  · intro st m fs h1 h2 h3
    by_cases h4 : jTruthy (jGet fs keyTo) = true
    · simp [ctxStep, h1, h2, h3, h4]
    · simp [ctxStep, h1, h2, h3, h4]
  · intro st m fs h1 h2 h3
    by_cases h4 : jTruthy (jGet fs keyFrom) = true
    · constructor <;> simp [ctxStep, h1, h2, h3, h4]
    · constructor <;> simp [ctxStep, h1, h2, h3, h4]
  · intro st m fs h1 h2 h3
    by_cases h4 : jTruthy (jGet fs keyTo) = true
    · simp [ctxStep, h1, h2, h3, h4]
    · simp [ctxStep, h1, h2, h3, h4]
  · intro pre m
    unfold recoverContext
    rw [List.dropLast_concat]

theorem recover_last_write_wins_witness :
    ctxStep ⟨none, some (JVal.jstr (pyS ("Queenstown"))), none⟩
        ⟨roleAssistant, pyS ("no payload this turn")⟩ =
      ⟨none, some (JVal.jstr (pyS ("Queenstown"))), none⟩ ∧
    (ctxStep ⟨none, some (JVal.jstr (pyS ("Queenstown"))), none⟩
        ⟨roleAssistant, pyS ("\x7b\"to\": \"Wanaka\"\x7d")⟩).dest =
      some (JVal.jstr (pyS ("Wanaka"))) := by
  constructor
  · exact recover_last_write_wins.2.1 _ _ rfl (by rfl)
  · have h := (recover_last_write_wins.2.2.1
      ⟨none, some (JVal.jstr (pyS ("Queenstown"))), none⟩
      ⟨roleAssistant, pyS ("\x7b\"to\": \"Wanaka\"\x7d")⟩
      [(keyTo, JVal.jstr (pyS ("Wanaka")))] rfl (by rfl) (by decide)).1
    rw [h]
    rfl

/-- The no-continuity composition the spec describes for the non-follow-up
path: the base prompt alone when no prior context exists, else the base
prompt, the recent-history excerpt and the user's message — with no
continuity instruction block. -/
def composeNoFollow (basePrompt ctx userMsg : Str) : Str :=
  if ctx.isEmpty then basePrompt
  else
    basePrompt ++ pyS ("\n\nCONTEXT:\n") ++ joinNL (lastN 6 (splitNL ctx)) ++
      pyS ("\n\nRespond to: ") ++ userMsg

/-- C5: `isFollowUp` is true exactly when at least one of the last 5 turns of
the session contains the substring "trip" or "route" case-insensitively in
its content; for every turn sequence with no such occurrence the flag is
false and the composed prompt is the plain no-continuity composition (the
continuity instruction block is not injected). -/
theorem follow_up_detection :
    (∀ msgs : List MsgT, isFollowUp msgs = true ↔
      ∃ m ∈ lastN 5 msgs, mentionsTripTopic m = true) ∧
    (∀ (basePrompt : Str) (msgs : List MsgT) (userMsg : Str),
      (∀ m ∈ lastN 5 msgs, mentionsTripTopic m = false) →
      isFollowUp msgs = false ∧
      promptFor basePrompt msgs userMsg =
        composeNoFollow basePrompt (convContext msgs.dropLast) userMsg) := by
  constructor
  · intro msgs
    unfold isFollowUp
    rw [Bool.and_eq_true, List.any_eq_true]
    constructor
    · rintro ⟨-, m, hm, hp⟩
      exact ⟨m, hm, hp⟩
    · rintro ⟨m, hm, hp⟩
      refine ⟨?_, m, hm, hp⟩
      cases msgs with
      | nil => simp [lastN] at hm
      | cons a t => rfl
  · intro basePrompt msgs userMsg hno
    have hany : (lastN 5 msgs).any mentionsTripTopic = false := by
      rw [List.any_eq_false]
      intro m hm
      rw [hno m hm]
      simp
    have hfalse : isFollowUp msgs = false := by
      unfold isFollowUp
      rw [hany, Bool.and_false]
    refine ⟨hfalse, ?_⟩
    simp only [promptFor, composePrompt, composeNoFollow, hfalse]
    split
    · rfl
    · rw [if_neg (by simp)]

def calmTurns : List MsgT :=
  [⟨roleUser, pyS ("hello there")⟩, ⟨roleAssistant, pyS ("Kia ora!")⟩,
   ⟨roleUser, pyS ("how are you")⟩]

theorem follow_up_detection_witness :
    isFollowUp calmTurns = false ∧
    promptFor (pyS ("BASE")) calmTurns (pyS ("how are you")) =
      composeNoFollow (pyS ("BASE")) (convContext calmTurns.dropLast)
        (pyS ("how are you")) :=
  follow_up_detection.2 (pyS ("BASE")) calmTurns (pyS ("how are you"))
    (by decide)

/-- C6: prompt composition is deterministic — two invocations with identical
base prompt, recovered context (origin, destination), follow-up flag,
accumulated history text, and user message compose identical system prompt
strings; the composition is a pure function of exactly these inputs, with no
randomness and no hidden state. -/
theorem compose_deterministic (b1 b2 : Str) (o1 o2 d1 d2 : Option JVal)
    (f1 f2 : Bool) (c1 c2 : Str) (u1 u2 : Str)
    (hb : b1 = b2) (ho : o1 = o2) (hd : d1 = d2) (hf : f1 = f2)
    (hc : c1 = c2) (hu : u1 = u2) :
    composePrompt b1 o1 d1 f1 c1 u1 = composePrompt b2 o2 d2 f2 c2 u2 := by
  rw [hb, ho, hd, hf, hc, hu]

theorem compose_deterministic_witness :
    composePrompt (pyS ("BASE")) none
        (some (JVal.jstr (pyS ("Queenstown")))) true (pyS ("user: hi\n"))
        (pyS ("more hotels")) =
      composePrompt (pyS ("BASE")) none
        (some (JVal.jstr (pyS ("Queenstown")))) true (pyS ("user: hi\n"))
        (pyS ("more hotels")) :=
  compose_deterministic _ _ _ _ _ _ _ _ _ _ _ _ rfl rfl rfl rfl rfl rfl

/-- C7: the user turn is persisted before the outbound LLM call and the
assistant turn only after a successful reply: a failed or timed-out call
leaves the session store holding exactly the just-appended user turn and no
assistant turn for the request, while a successful call appends both. -/
theorem chat_persistence_order :
    (∀ (basePrompt : Str) (store : List MsgT) (sessionId userMsg : Str)
        (llm : Str → Option Str),
      llm (promptUsed basePrompt store userMsg) = none →
      chatRun basePrompt store sessionId userMsg llm =
        (store ++ [⟨roleUser, userMsg⟩], none)) ∧
    (∀ (basePrompt : Str) (store : List MsgT) (sessionId userMsg : Str)
        (llm : Str → Option Str) (reply : Str),
      llm (promptUsed basePrompt store userMsg) = some reply →
      chatRun basePrompt store sessionId userMsg llm =
        (store ++ [⟨roleUser, userMsg⟩, ⟨roleAssistant, reply⟩],
          some ⟨sessionId, reply, extract reply⟩)) := by
  constructor
  · intro b store sid u llm h
    show (match llm (promptUsed b store u) with
      | none => (store ++ [⟨roleUser, u⟩], (none : Option ChatResp))
      | some reply => ((store ++ [⟨roleUser, u⟩]) ++ [⟨roleAssistant, reply⟩],
          some ⟨sid, reply, extract reply⟩)) =
      (store ++ [⟨roleUser, u⟩], none)
    rw [h]
  · intro b store sid u llm reply h
    show (match llm (promptUsed b store u) with
      | none => (store ++ [⟨roleUser, u⟩], (none : Option ChatResp))
      | some reply => ((store ++ [⟨roleUser, u⟩]) ++ [⟨roleAssistant, reply⟩],
          some ⟨sid, reply, extract reply⟩)) =
      (store ++ [⟨roleUser, u⟩, ⟨roleAssistant, reply⟩],
        some ⟨sid, reply, extract reply⟩)
    rw [h]
    simp

theorem chat_persistence_order_witness :
    chatRun (pyS ("BASE")) [] (pyS ("s1")) (pyS ("hi")) (fun _ => none) =
      ([⟨roleUser, pyS ("hi")⟩], none) ∧
    chatRun (pyS ("BASE")) [] (pyS ("s1")) (pyS ("hi"))
        (fun _ => some (pyS ("Kia ora!"))) =
      ([⟨roleUser, pyS ("hi")⟩, ⟨roleAssistant, pyS ("Kia ora!")⟩],
        some ⟨pyS ("s1"), pyS ("Kia ora!"), extract (pyS ("Kia ora!"))⟩) := by
  constructor
  · exact chat_persistence_order.1 _ [] _ _ _ rfl
  · exact chat_persistence_order.2 _ [] _ _ _ _ rfl

def histSix : List MsgT :=
  [⟨roleUser, pyS ("a1")⟩, ⟨roleAssistant, pyS ("a2")⟩,
   ⟨roleUser, pyS ("a3")⟩, ⟨roleAssistant, pyS ("a4")⟩,
   ⟨roleUser, pyS ("a5")⟩, ⟨roleAssistant, pyS ("a6")⟩]

def histMsgs : List MsgT := histSix ++ [⟨roleUser, pyS ("next")⟩]

/-- C8 counterexample: with six single-line prior turns and no active trip
context, the composed prompt's excerpt covers only the last five turns — the
history blob ends with a newline, so the trailing empty split slot consumes
one of the six line positions — and therefore differs from the claimed
last-6-turns text: the sixth-from-last turn's content "a1" is absent. -/
theorem prompt_excerpt_counterexample :
    isFollowUp histMsgs = false ∧
    promptFor (pyS ("BASE")) histMsgs (pyS ("next")) =
      pyS ("BASE") ++ pyS ("\n\nCONTEXT:\n") ++ convContext (lastN 5 histSix) ++
        pyS ("\n\nRespond to: ") ++ pyS ("next") ∧
    promptFor (pyS ("BASE")) histMsgs (pyS ("next")) ≠
      pyS ("BASE") ++ pyS ("\n\nCONTEXT:\n") ++ convContext (lastN 6 histSix) ++
        pyS ("\n\nRespond to: ") ++ pyS ("next") ∧
    strContains (promptFor (pyS ("BASE")) histMsgs (pyS ("next")))
      (pyS ("a1")) = false :=
  ⟨rfl, by decide, by decide, by decide⟩

/-- C8 amended: when prior history exists and no active trip context is
detected, the composed prompt appends the last 6 newline-split lines of the
role-prefixed history blob — which, the blob ending with a newline, amounts
to the last 5 turns when turn contents are single-line — followed by the
user's message, with no continuity constraint. -/
theorem prompt_excerpt_last_lines (basePrompt : Str) (msgs : List MsgT)
    (userMsg : Str) (hne : (convContext msgs.dropLast).isEmpty = false)
    (hflw : isFollowUp msgs = false) :
    promptFor basePrompt msgs userMsg =
      basePrompt ++ pyS ("\n\nCONTEXT:\n") ++
        joinNL (lastN 6 (splitNL (convContext msgs.dropLast))) ++
        pyS ("\n\nRespond to: ") ++ userMsg := by
  simp [promptFor, composePrompt, hne, hflw]

theorem prompt_excerpt_last_lines_witness :
    promptFor (pyS ("B2")) histMsgs (pyS ("go")) =
      pyS ("B2") ++ pyS ("\n\nCONTEXT:\n") ++
        joinNL (lastN 6 (splitNL (convContext histMsgs.dropLast))) ++
        pyS ("\n\nRespond to: ") ++ pyS ("go") :=
  prompt_excerpt_last_lines (pyS ("B2")) histMsgs (pyS ("go")) (by decide)
    (by decide)

/-- C9: context recovery and prompt composition read only the 100
earliest-timestamped turns of the session (the history query sorts ascending
and truncates at 100): stores agreeing on their first 100 turns yield
identical recovered context, follow-up flag, and composed prompt, so a turn
beyond the first 100 never affects them. -/
theorem history_truncation (s t : List MsgT) (basePrompt userMsg : Str)
    (h : s.take 100 = t.take 100) :
    recoverContext (fetchHistory s) = recoverContext (fetchHistory t) ∧
    isFollowUp (fetchHistory s) = isFollowUp (fetchHistory t) ∧
    promptFor basePrompt (fetchHistory s) userMsg =
      promptFor basePrompt (fetchHistory t) userMsg := by
  unfold fetchHistory
  rw [h]
  exact ⟨rfl, rfl, rfl⟩

def fillerTurn : MsgT := ⟨roleUser, pyS ("hello")⟩

def bigStoreA : List MsgT :=
  List.replicate 100 fillerTurn ++
    [⟨roleAssistant, pyS ("\x7b\"to\": \"Nelson\"\x7d")⟩]

def bigStoreB : List MsgT :=
  List.replicate 100 fillerTurn ++ [⟨roleUser, pyS ("route to Taupo")⟩]

theorem history_truncation_witness :
    recoverContext (fetchHistory bigStoreA) =
      recoverContext (fetchHistory bigStoreB) ∧
    isFollowUp (fetchHistory bigStoreA) = isFollowUp (fetchHistory bigStoreB) := by
  have h := history_truncation bigStoreA bigStoreB (pyS ("BASE")) (pyS ("hi"))
    (by
      unfold bigStoreA bigStoreB
      rw [List.take_left' (List.length_replicate 100 fillerTurn),
        List.take_left' (List.length_replicate 100 fillerTurn)])
  exact ⟨h.1, h.2.1⟩

/-- C10: the message field of the chat response is always the raw, unmodified
model reply: for every completion string, whether trip-data extraction
succeeds or fails, the reply text returned equals the completion content
character for character (extraction normalises only a local copy). -/
theorem response_echoes_reply (basePrompt : Str) (store : List MsgT)
    (sessionId userMsg : Str) (llm : Str → Option Str) (reply : Str)
    (h : llm (promptUsed basePrompt store userMsg) = some reply) :
    ∃ resp : ChatResp,
      (chatRun basePrompt store sessionId userMsg llm).2 = some resp ∧
      resp.message = reply ∧ resp.trip = extract reply := by
  refine ⟨⟨sessionId, reply, extract reply⟩, ?_, rfl, rfl⟩
  show ((match llm (promptUsed basePrompt store userMsg) with
    | none => (store ++ [⟨roleUser, userMsg⟩], (none : Option ChatResp))
    | some reply => ((store ++ [⟨roleUser, userMsg⟩]) ++ [⟨roleAssistant, reply⟩],
        some ⟨sessionId, reply, extract reply⟩) :
    List MsgT × Option ChatResp)).2 =
    some ⟨sessionId, reply, extract reply⟩
  rw [h]

theorem response_echoes_reply_witness :
    ∃ resp : ChatResp,
      (chatRun (pyS ("BASE")) [] (pyS ("s2")) (pyS ("plan a trip"))
        (fun _ => some braceSpanReply)).2 = some resp ∧
      resp.message = braceSpanReply ∧ resp.trip = extract braceSpanReply :=
  response_echoes_reply _ _ _ _ _ _ rfl
